import Mathlib

/-!
Shallow embedding of `src/main.cpp` (Fluxie/return_test), a micro-benchmark
harness comparing stack-buffer and heap-vector return strategies.

Bytes are modelled as `Nat`; machine memory reads/writes are modelled on
`List Nat`.  Uninitialized stack memory (the `std::array` member before
`memcpy` fills its prefix) is modelled by an explicit `junk` list supplied to
each constructing operation, so that theorems quantify over arbitrary residual
memory contents.  Timing nondeterminism (the high-resolution clock) is
modelled by a sample oracle `Nat → Nat` giving each trial's per-call duration
in nanoseconds.  An out-of-memory condition during `std::vector` allocation is
modelled by an explicit `oom : Bool` flag; `std::bad_alloc` becomes the
`CppError.badAlloc` value of an `Except`.
-/

/-- `enum class ReturnMethod { Array, Vector }` from the source. -/
inductive ReturnMethod where
  | Array
  | Vector
deriving DecidableEq, Repr

/-- `enum class ExceptionHandling { Omit, Include }` from the source. -/
inductive ExceptionHandling where
  | Omit
  | Include
deriving DecidableEq, Repr

/-- The numeric value of the `ExceptionHandling` enum, as printed by
`static_cast<uint32_t>(TExceptionHandling)` in `MeasureAndReport`. -/
def ExceptionHandling.code : ExceptionHandling → Nat
  | .Omit => 0
  | .Include => 1

/-- The only failure kind the program declares: `std::bad_alloc` raised by
`std::vector` allocation. -/
inductive CppError where
  | badAlloc
deriving DecidableEq, Repr

/-- `std::memcpy(dest, src, n)`: overwrite the first `n` cells of `dest` with
the first `n` cells of `src`, leaving the rest of `dest` untouched. -/
def memcpyInto (dest src : List Nat) (n : Nat) : List Nat :=
  src.take n ++ dest.drop n

/-- `StackBuffer<TSize>`: `std::array<std::byte, TSize> m_data` together with
`size_t m_length`.  `m_data` is the raw array contents (meaningful only up to
`m_length`). -/
structure StackBuffer (TSize : Nat) where
  m_data : List Nat
  m_length : Nat
deriving DecidableEq, Repr

namespace StackBuffer

/-- `StackBuffer(const std::byte* buffer, size_t length)`:
`m_length = std::min(TSize, length)` then `memcpy(m_data, buffer, m_length)`.
`junk` is the uninitialized contents of `m_data` before the `memcpy`. -/
def mkFrom (TSize : Nat) (junk buffer : List Nat) (length : Nat) :
    StackBuffer TSize :=
  let l := min TSize length
  ⟨memcpyInto junk buffer l, l⟩

/-- `StackBuffer(const StackBuffer& source)`: `m_length = source.m_length`,
then `memcpy(m_data, source.m_data, source.m_length)`.  `junk` models the
fresh object's uninitialized `m_data`. -/
def copyConstruct {TSize : Nat} (junk : List Nat) (source : StackBuffer TSize) :
    StackBuffer TSize :=
  ⟨memcpyInto junk source.m_data source.m_length, source.m_length⟩

/-- `StackBuffer(StackBuffer&& source)`: the move constructor performs the same
member copy as the copy constructor (the bytes are POD). -/
def moveConstruct {TSize : Nat} (junk : List Nat) (source : StackBuffer TSize) :
    StackBuffer TSize :=
  ⟨memcpyInto junk source.m_data source.m_length, source.m_length⟩

/-- `operator=(const StackBuffer& source)` applied to object `dest`.
`aliased` models the pointer comparison `this == &source`: when it holds the
guard `if (this != &source)` skips the copy and `dest` is unchanged. -/
def copyAssign {TSize : Nat} (dest source : StackBuffer TSize)
    (aliased : Bool) : StackBuffer TSize :=
  if aliased then dest
  else ⟨memcpyInto dest.m_data source.m_data source.m_length, source.m_length⟩

/-- `operator=(StackBuffer&& source)` applied to object `dest`: same member
copy as copy assignment, behind the same self-assignment guard. -/
def moveAssign {TSize : Nat} (dest source : StackBuffer TSize)
    (aliased : Bool) : StackBuffer TSize :=
  if aliased then dest
  else ⟨memcpyInto dest.m_data source.m_data source.m_length, source.m_length⟩

/-- The observable bytes of a buffer: its stored contents up to `m_length`. -/
def contents {TSize : Nat} (b : StackBuffer TSize) : List Nat :=
  b.m_data.take b.m_length

end StackBuffer

/-- The `std::variant<StackBuffer<TSize>, std::vector<std::byte>>` return type
of `Transform`. -/
inductive TransformResult (TSize : Nat) where
  | array (b : StackBuffer TSize)
  | vector (v : List Nat)
deriving DecidableEq, Repr

/-- `Transform<TSize, TReturnMethod>(buffer, length)`: the Array branch builds
a `StackBuffer<TSize>` from the input (never allocating); the Vector branch
builds `std::vector<std::byte>(buffer, buffer + length)`, which under the
out-of-memory condition `oom` raises `std::bad_alloc`. -/
def Transform (TSize : Nat) (TReturnMethod : ReturnMethod)
    (junk buffer : List Nat) (length : Nat) (oom : Bool) :
    Except CppError (TransformResult TSize) :=
  if TReturnMethod = ReturnMethod.Array then
    Except.ok (TransformResult.array (StackBuffer.mkFrom TSize junk buffer length))
  else
    if oom then Except.error CppError.badAlloc
    else Except.ok (TransformResult.vector (buffer.take length))

/-- `TryTransform<TSize, TReturnMethod, TExceptionHandling>(buffer, length)`:
with `Include`, `Transform` runs inside `try { ... } catch (std::bad_alloc&)`
and a caught `bad_alloc` is replaced by an empty `std::vector<std::byte>()`;
with `Omit`, `Transform` is called directly and any failure propagates. -/
def TryTransform (TSize : Nat) (TReturnMethod : ReturnMethod)
    (TExceptionHandling : ExceptionHandling)
    (junk buffer : List Nat) (length : Nat) (oom : Bool) :
    Except CppError (TransformResult TSize) :=
  match TExceptionHandling with
  | ExceptionHandling.Include =>
    match Transform TSize TReturnMethod junk buffer length oom with
    | Except.error CppError.badAlloc =>
        Except.ok (TransformResult.vector [])
    | Except.ok r => Except.ok r
  | ExceptionHandling.Omit =>
    Transform TSize TReturnMethod junk buffer length oom

/-- The samples collected by `MeasureTransform`'s while-loop: one push per
iteration until `vecSamples.size()` reaches 1000, the `i`-th pushed value
being that trial's measured per-call duration `sample i`. -/
def collectSamples (sample : Nat → Nat) : List Nat :=
  (List.range 1000).map sample

/-- `TryMultipleTransforms<TSize, TReturnMethod, TExceptionHandling>(buffer,
length)`: runs `TryTransform` `scaling = 10000` times, feeding each discarded
result through `DoNotOptimize`, and returns `scaling`. -/
def TryMultipleTransforms (TSize : Nat) (TReturnMethod : ReturnMethod)
    (TExceptionHandling : ExceptionHandling)
    (buffer : List Nat) (length : Nat) : Nat :=
  10000

/-- `MeasureTransform<TSize, TReturnMethod, TExceptionHandling>(vecData)`:
collect 1000 trial samples, `std::sort` them ascending, and return the tuple
`(vecSamples[vecSamples.size() / 2], TReturnMethod == ReturnMethod::Vector)`.
The clock is modelled by the oracle `sample`, giving trial `i`'s elapsed time
already divided by the `scaling` returned from `TryMultipleTransforms`. -/
def MeasureTransform (TSize : Nat) (TReturnMethod : ReturnMethod)
    (TExceptionHandling : ExceptionHandling)
    (vecData : List Nat) (sample : Nat → Nat) : Nat × Bool :=
  let vecSamples := collectSamples sample
  let sorted := vecSamples.mergeSort (fun a b => decide (a ≤ b))
  (sorted.getD (sorted.length / 2) 0,
   decide (TReturnMethod = ReturnMethod.Vector))

/-- One line of `MeasureAndReport`'s console output:
`Data: <size>, Buffer: <TSize>, Duration:<ns> ns, Vector: <0|1>, Exceptions: <0|1>`. -/
structure ReportLine where
  dataSize : Nat
  bufferSize : Nat
  durationNs : Nat
  vectorFlag : Bool
  exceptionsFlag : Nat
deriving DecidableEq, Repr

/-- `MeasureAndReport<TSize, TReturnMethod, TExceptionHandling>(vecData)`:
returns without output when `TSize < vecData.size()` (the array would
truncate and falsify the results); otherwise measures and prints exactly one
report line. -/
def MeasureAndReport (TSize : Nat) (TReturnMethod : ReturnMethod)
    (TExceptionHandling : ExceptionHandling)
    (vecData : List Nat) (sample : Nat → Nat) : Option ReportLine :=
  if TSize < vecData.length then none
  else
    let testResult :=
      MeasureTransform TSize TReturnMethod TExceptionHandling vecData sample
    some ⟨vecData.length, TSize, testResult.1, testResult.2,
          TExceptionHandling.code⟩

/-! ## Helper lemmas -/

/-- Reading back the `n` bytes written by `memcpy` returns the copied prefix
of the source, whatever the destination held before, provided the source
really has `n` bytes to read. -/
theorem take_memcpyInto (dest src : List Nat) (n : Nat)
    (h : n ≤ src.length) :
    (memcpyInto dest src n).take n = src.take n := by
  simp [memcpyInto, List.take_append_eq_append_take, List.take_take,
        List.length_take, Nat.min_eq_left h, Nat.sub_self]

/-- `memcpy` writing `n` bytes from a source that has them leaves the
destination at least `n` cells long. -/
theorem le_length_memcpyInto (dest src : List Nat) (n : Nat)
    (h : n ≤ src.length) :
    n ≤ (memcpyInto dest src n).length := by
  simp [memcpyInto, List.length_take, Nat.min_eq_left h]

/-- A buffer constructed from a pointer/length pair backed by `source` has at
least `m_length` initialized data cells. -/
theorem mkFrom_length_le_data_length (C : Nat) (junk source : List Nat) :
    (StackBuffer.mkFrom C junk source source.length).m_length ≤
      (StackBuffer.mkFrom C junk source source.length).m_data.length := by
  simpa [StackBuffer.mkFrom] using
    le_length_memcpyInto junk source (min C source.length)
      (Nat.min_le_right C source.length)


/-! ## Claims about `StackBuffer` -/

/-- C1: constructing `StackBuffer<C>` from a source of length `L` stores
`min(C, L)` as the length field and the first `min(C, L)` source bytes as
contents; in particular, for `L ≤ C` the content is the whole source with
length `L`, and for `L > C` the content is the first `C` bytes with
length `C`. -/
theorem C1_bounded_buffer_construction (C : Nat) (junk source : List Nat) :
    (StackBuffer.mkFrom C junk source source.length).m_length =
      min C source.length ∧
    (StackBuffer.mkFrom C junk source source.length).contents =
      source.take (min C source.length) ∧
    (source.length ≤ C →
      (StackBuffer.mkFrom C junk source source.length).m_length =
          source.length ∧
        (StackBuffer.mkFrom C junk source source.length).contents = source) ∧
    (C < source.length →
      (StackBuffer.mkFrom C junk source source.length).m_length = C ∧
        (StackBuffer.mkFrom C junk source source.length).contents =
          source.take C) := by
  have hmin : min C source.length ≤ source.length := Nat.min_le_right _ _
  have hcont : (StackBuffer.mkFrom C junk source source.length).contents =
      source.take (min C source.length) := by
    simpa [StackBuffer.mkFrom, StackBuffer.contents] using
      take_memcpyInto junk source (min C source.length) hmin
  refine ⟨rfl, hcont, ?_, ?_⟩
  · intro hLC
    have hm : min C source.length = source.length := Nat.min_eq_right hLC
    constructor
    · simp [StackBuffer.mkFrom, hm]
    · rw [hcont, hm, List.take_length]
  · intro hCL
    have hm : min C source.length = C := Nat.min_eq_left (Nat.le_of_lt hCL)
    constructor
    · simp [StackBuffer.mkFrom, hm]
    · rw [hcont, hm]

/-- Witness for C1: at `C = 10`, source `[5, 6, 7]` (length 3 ≤ 10) the buffer
holds the whole source with length 3; at `C = 2` (2 < 3) it holds the first
two bytes with length 2. -/
theorem C1_bounded_buffer_construction_witness :
    ((StackBuffer.mkFrom 10 [] [5, 6, 7] 3).m_length = 3 ∧
      (StackBuffer.mkFrom 10 [] [5, 6, 7] 3).contents = [5, 6, 7]) ∧
    ((StackBuffer.mkFrom 2 [] [5, 6, 7] 3).m_length = 2 ∧
      (StackBuffer.mkFrom 2 [] [5, 6, 7] 3).contents = [5, 6].take 2) :=
  ⟨(C1_bounded_buffer_construction 10 [] [5, 6, 7]).2.2.1 (by decide),
   (C1_bounded_buffer_construction 2 [] [5, 6, 7]).2.2.2 (by decide)⟩

/-- C6: copy construction, move construction, copy assignment and move
assignment from a directly-constructed buffer each reproduce its length field
and its stored bytes up to that length, for any residual memory `junk2` and
any previous destination object `dest`; move and copy produce identical
buffers. -/
theorem C6_copy_move_equal_direct (C : Nat) (junk junk2 source : List Nat)
    (dest : StackBuffer C) :
    (StackBuffer.copyConstruct junk2
          (StackBuffer.mkFrom C junk source source.length)).m_length =
        (StackBuffer.mkFrom C junk source source.length).m_length ∧
    (StackBuffer.copyConstruct junk2
          (StackBuffer.mkFrom C junk source source.length)).contents =
        (StackBuffer.mkFrom C junk source source.length).contents ∧
    (StackBuffer.copyAssign dest
          (StackBuffer.mkFrom C junk source source.length) false).m_length =
        (StackBuffer.mkFrom C junk source source.length).m_length ∧
    (StackBuffer.copyAssign dest
          (StackBuffer.mkFrom C junk source source.length) false).contents =
        (StackBuffer.mkFrom C junk source source.length).contents ∧
    StackBuffer.moveConstruct junk2
        (StackBuffer.mkFrom C junk source source.length) =
      StackBuffer.copyConstruct junk2
        (StackBuffer.mkFrom C junk source source.length) ∧
    StackBuffer.moveAssign dest
        (StackBuffer.mkFrom C junk source source.length) false =
      StackBuffer.copyAssign dest
        (StackBuffer.mkFrom C junk source source.length) false := by
  have hwf := mkFrom_length_le_data_length C junk source
  refine ⟨rfl, ?_, rfl, ?_, rfl, rfl⟩
  · simpa [StackBuffer.copyConstruct, StackBuffer.contents] using
      take_memcpyInto junk2
        (StackBuffer.mkFrom C junk source source.length).m_data
        (StackBuffer.mkFrom C junk source source.length).m_length hwf
  · simpa [StackBuffer.copyAssign, StackBuffer.contents] using
      take_memcpyInto dest.m_data
        (StackBuffer.mkFrom C junk source source.length).m_data
        (StackBuffer.mkFrom C junk source source.length).m_length hwf

/-- The buffers producible by the type's operations: direct construction from
a pointer/length pair, copy/move construction from a reachable buffer, and
copy/move assignment between reachable buffers (with either outcome of the
self-assignment pointer test). -/
inductive Reachable (C : Nat) : StackBuffer C → Prop where
  | construct (junk buffer : List Nat) (length : Nat) :
      Reachable C (StackBuffer.mkFrom C junk buffer length)
  | copyCons (junk : List Nat) (source : StackBuffer C) :
      Reachable C source → Reachable C (StackBuffer.copyConstruct junk source)
  | moveCons (junk : List Nat) (source : StackBuffer C) :
      Reachable C source → Reachable C (StackBuffer.moveConstruct junk source)
  | copyAsn (dest source : StackBuffer C) (aliased : Bool) :
      Reachable C dest → Reachable C source →
      Reachable C (StackBuffer.copyAssign dest source aliased)
  | moveAsn (dest source : StackBuffer C) (aliased : Bool) :
      Reachable C dest → Reachable C source →
      Reachable C (StackBuffer.moveAssign dest source aliased)

/-- C7: every `StackBuffer<C>` produced by any sequence of the type's
operations satisfies the invariant `m_length ≤ C`. -/
theorem C7_length_le_capacity (C : Nat) (b : StackBuffer C)
    (h : Reachable C b) : b.m_length ≤ C := by
  induction h with
  | construct junk buffer length => exact Nat.min_le_left _ _
  | copyCons junk source _ ih => exact ih
  | moveCons junk source _ ih => exact ih
  | copyAsn dest source aliased _ _ ihd ihs =>
    cases aliased with
    | true => simpa [StackBuffer.copyAssign] using ihd
    | false => simpa [StackBuffer.copyAssign] using ihs
  | moveAsn dest source aliased _ _ ihd ihs =>
    cases aliased with
    | true => simpa [StackBuffer.moveAssign] using ihd
    | false => simpa [StackBuffer.moveAssign] using ihs

/-- Witness for C7: a copy of a buffer built from a 3-byte source into
capacity 2 keeps its length within the capacity. -/
theorem C7_length_le_capacity_witness :
    (StackBuffer.copyConstruct []
        (StackBuffer.mkFrom 2 [] [1, 2, 3] 3)).m_length ≤ 2 :=
  C7_length_le_capacity 2 _
    (Reachable.copyCons [] _ (Reachable.construct [] [1, 2, 3] 3))

/-- C10: assigning a buffer to itself, by copy assignment or by move
assignment (the aliased case, where the source pointer equals `this`), leaves
the buffer unchanged. -/
theorem C10_self_assignment_frame (C : Nat) (b : StackBuffer C) :
    StackBuffer.copyAssign b b true = b ∧
    StackBuffer.moveAssign b b true = b := by
  constructor <;> simp [StackBuffer.copyAssign, StackBuffer.moveAssign]

/-! ## Claims about `Transform` and `TryTransform` -/

/-- C4: in `Include` mode `TryTransform` returns `Transform`'s result when no
failure occurs and an empty vector when `Transform` raises `bad_alloc`; in
`Omit` mode it is exactly `Transform`, so any failure propagates uncaught. -/
theorem C4_fault_tolerant_wrapper (TSize : Nat) (m : ReturnMethod)
    (junk buffer : List Nat) (length : Nat) (oom : Bool) :
    (∀ r : TransformResult TSize,
      Transform TSize m junk buffer length oom = Except.ok r →
        TryTransform TSize m ExceptionHandling.Include junk buffer length oom =
          Except.ok r) ∧
    (Transform TSize m junk buffer length oom =
        Except.error CppError.badAlloc →
      TryTransform TSize m ExceptionHandling.Include junk buffer length oom =
        Except.ok (TransformResult.vector [])) ∧
    TryTransform TSize m ExceptionHandling.Omit junk buffer length oom =
      Transform TSize m junk buffer length oom := by
  refine ⟨fun r h => ?_, fun h => ?_, rfl⟩
  · simp [TryTransform, h]
  · simp [TryTransform, h]

/-- Witness for C4: with the out-of-memory condition raised, the Vector
branch in `Include` mode recovers to an empty vector; without it, the result
of `Transform` is passed through. -/
theorem C4_fault_tolerant_wrapper_witness :
    TryTransform 4 ReturnMethod.Vector ExceptionHandling.Include
        [] [1, 2] 2 true = Except.ok (TransformResult.vector []) ∧
    TryTransform 4 ReturnMethod.Vector ExceptionHandling.Include
        [] [1, 2] 2 false = Except.ok (TransformResult.vector [1, 2]) :=
  ⟨(C4_fault_tolerant_wrapper 4 ReturnMethod.Vector [] [1, 2] 2 true).2.1 rfl,
   (C4_fault_tolerant_wrapper 4 ReturnMethod.Vector [] [1, 2] 2 false).1
      (TransformResult.vector [1, 2]) rfl⟩

/-- C5: whenever `Transform` succeeds, `TryTransform` in `Include` mode and
in `Omit` mode return the same result. -/
theorem C5_include_omit_equivalent (TSize : Nat) (m : ReturnMethod)
    (junk buffer : List Nat) (length : Nat) (oom : Bool)
    (r : TransformResult TSize)
    (h : Transform TSize m junk buffer length oom = Except.ok r) :
    TryTransform TSize m ExceptionHandling.Include junk buffer length oom =
      TryTransform TSize m ExceptionHandling.Omit junk buffer length oom := by
  simp [TryTransform, h]

/-- Witness for C5: on a successful Array-branch call, the two
exception-handling modes agree. -/
theorem C5_include_omit_equivalent_witness :
    TryTransform 4 ReturnMethod.Array ExceptionHandling.Include
        [] [1, 2] 2 false =
      TryTransform 4 ReturnMethod.Array ExceptionHandling.Omit
        [] [1, 2] 2 false :=
  C5_include_omit_equivalent 4 ReturnMethod.Array [] [1, 2] 2 false
    (TransformResult.array (StackBuffer.mkFrom 4 [] [1, 2] 2)) rfl

/-- C8: for every capacity and every source, the Vector branch of `Transform`
(absent an allocation failure) yields a dynamic sequence equal to the whole
source — exactly `L` bytes for a source of length `L`, including `L = 0`. -/
theorem C8_vector_branch_copies_source (C : Nat) (junk source : List Nat) :
    Transform C ReturnMethod.Vector junk source source.length false =
      Except.ok (TransformResult.vector source) := by
  simp [Transform]

/-- C9: `Transform`'s only failure mode is `bad_alloc` under out-of-memory in
the Vector branch; the Array branch always succeeds with the constructed
`StackBuffer`, so for it `Include` and `Omit` handling coincide and the
recovery branch is unreachable. -/
theorem C9_array_branch_never_fails (C : Nat) (m : ReturnMethod)
    (junk buffer : List Nat) (length : Nat) (oom : Bool) :
    (∀ e : CppError, Transform C m junk buffer length oom = Except.error e →
      m = ReturnMethod.Vector ∧ e = CppError.badAlloc ∧ oom = true) ∧
    Transform C ReturnMethod.Array junk buffer length oom =
      Except.ok
        (TransformResult.array (StackBuffer.mkFrom C junk buffer length)) ∧
    TryTransform C ReturnMethod.Array ExceptionHandling.Include
        junk buffer length oom =
      TryTransform C ReturnMethod.Array ExceptionHandling.Omit
        junk buffer length oom := by
  refine ⟨fun e h => ?_, rfl, rfl⟩
  cases m with
  | Array => simp [Transform] at h
  | Vector =>
    cases oom with
    | true =>
      cases e
      exact ⟨rfl, rfl, rfl⟩
    | false => simp [Transform] at h

/-- Witness for C9: the only concrete failure is `bad_alloc` from the Vector
branch under out-of-memory, and the Array branch succeeds even then. -/
theorem C9_array_branch_never_fails_witness :
    (ReturnMethod.Vector = ReturnMethod.Vector ∧
      CppError.badAlloc = CppError.badAlloc ∧ true = true) ∧
    Transform 4 ReturnMethod.Array [] [1, 2] 2 true =
      Except.ok
        (TransformResult.array (StackBuffer.mkFrom 4 [] [1, 2] 2)) :=
  ⟨(C9_array_branch_never_fails 4 ReturnMethod.Vector [] [1, 2] 2 true).1
      CppError.badAlloc rfl,
   (C9_array_branch_never_fails 4 ReturnMethod.Array [] [1, 2] 2 true).2.1⟩

/-! ## Claims about the trial runner and reporting -/

/-- C2: the Trial Runner collects exactly 1000 samples, sorts them ascending
(the sorted list is an ordered permutation of the samples), reports the single
sample at sorted index `size / 2 = 500` (0-indexed) as the representative
duration, and pairs it with a flag that is true exactly for the Vector
strategy. -/
theorem C2_trial_runner_median (TSize : Nat) (m : ReturnMethod)
    (eh : ExceptionHandling) (vecData : List Nat) (sample : Nat → Nat) :
    (collectSamples sample).length = 1000 ∧
    List.Sorted (fun a b : Nat => a ≤ b)
      ((collectSamples sample).mergeSort (fun a b => decide (a ≤ b))) ∧
    List.Perm ((collectSamples sample).mergeSort (fun a b => decide (a ≤ b)))
      (collectSamples sample) ∧
    (MeasureTransform TSize m eh vecData sample).1 =
      ((collectSamples sample).mergeSort
          (fun a b => decide (a ≤ b))).getD 500 0 ∧
    ((MeasureTransform TSize m eh vecData sample).2 = true ↔
      m = ReturnMethod.Vector) := by
  have hlen : (collectSamples sample).length = 1000 := by
    simp [collectSamples]
  have htrans : ∀ (a b c : Nat),
      decide (a ≤ b) = true → decide (b ≤ c) = true →
        decide (a ≤ c) = true := by
    intro a b c hab hbc
    simp only [decide_eq_true_eq] at *
    omega
  have htotal : ∀ (a b : Nat), (decide (a ≤ b) || decide (b ≤ a)) = true := by
    intro a b
    simp [Nat.le_total a b]
  refine ⟨hlen, ?_, List.mergeSort_perm _ _, ?_, ?_⟩
  · have h := List.sorted_mergeSort htrans htotal (collectSamples sample)
    exact h.imp (fun hab => by simpa using hab)
  · show ((collectSamples sample).mergeSort (fun a b => decide (a ≤ b))).getD
        (((collectSamples sample).mergeSort
            (fun a b => decide (a ≤ b))).length / 2) 0 =
      ((collectSamples sample).mergeSort
          (fun a b => decide (a ≤ b))).getD 500 0
    rw [List.length_mergeSort, hlen]
  · simp [MeasureTransform]

/-- C3: a configuration point with capacity strictly below the input length
is skipped (no report line); one with capacity at least the input length
produces exactly one report line, carrying the input size, the capacity, the
measured median, the strategy flag and the numeric fault-handling mode. -/
theorem C3_skip_small_capacity (TSize : Nat) (m : ReturnMethod)
    (eh : ExceptionHandling) (vecData : List Nat) (sample : Nat → Nat) :
    (TSize < vecData.length →
      MeasureAndReport TSize m eh vecData sample = none) ∧
    (vecData.length ≤ TSize →
      MeasureAndReport TSize m eh vecData sample =
        some ⟨vecData.length, TSize,
          (MeasureTransform TSize m eh vecData sample).1,
          (MeasureTransform TSize m eh vecData sample).2,
          eh.code⟩) := by
  constructor
  · intro h
    simp [MeasureAndReport, h]
  · intro h
    simp [MeasureAndReport, Nat.not_lt.mpr h]

/-- Witness for C3: a 9-byte input is skipped at capacity 4 and reported at
capacity 10. -/
theorem C3_skip_small_capacity_witness :
    MeasureAndReport 4 ReturnMethod.Array ExceptionHandling.Include
        [0, 1, 2, 3, 4, 5, 6, 7, 8] (fun i => i) = none ∧
    (MeasureAndReport 10 ReturnMethod.Array ExceptionHandling.Include
        [0, 1, 2, 3, 4, 5, 6, 7, 8] (fun i => i)).isSome = true := by
  constructor
  · exact (C3_skip_small_capacity 4 ReturnMethod.Array
      ExceptionHandling.Include [0, 1, 2, 3, 4, 5, 6, 7, 8] (fun i => i)).1
      (by decide)
  · rw [(C3_skip_small_capacity 10 ReturnMethod.Array
      ExceptionHandling.Include [0, 1, 2, 3, 4, 5, 6, 7, 8] (fun i => i)).2
      (by decide)]
    rfl
